import Mathlib

/-
Verification of the weather-analysis core of a weather e-mail notifier
(src/index.js): time bucketing, rain-timing extraction, the drying-advice
and umbrella-advice decision rules, and the message assembly around them.

Modelling conventions:
* JavaScript numbers carrying temperatures, precipitation probabilities and
  rain volumes are modelled as rationals; epoch timestamps as integers.
* JSON fields that may be absent (or hold a non-numeric value filtered out
  by the code) are Options.
* The ambient quantities the code reads (the host timezone offset in
  minutes as returned by getTimezoneOffset, today's local day number from
  the clock, and the formatted LATITUDE/LONGITUDE environment strings) are
  passed as explicit parameters (tz, today, latS, lonS).
* Local calendar dates are represented by their day number: the date
  string produced by toISOString().split("T")[0] determines and is
  determined by this number, so string equality of dates is day equality.
* The Thai / pictograph string literals below are copied byte-for-byte
  from the source file.
-/

def msgFetchFail : String := "‡πÑ‡∏°‡πà‡∏™‡∏≤‡∏°‡∏≤‡∏£‡∏ñ‡∏î‡∏∂‡∏á‡∏Ç‡πâ‡∏≠‡∏°‡∏π‡∏•‡∏™‡∏†‡∏≤‡∏û‡∏≠‡∏≤‡∏Å‡∏≤‡∏®‡πÑ‡∏î‡πâ‡∏Ñ‡∏£‡∏±‡∏ö"
def msgNoToday : String := "‡πÑ‡∏°‡πà‡∏°‡∏µ‡∏Ç‡πâ‡∏≠‡∏°‡∏π‡∏•‡∏™‡∏†‡∏≤‡∏û‡∏≠‡∏≤‡∏Å‡∏≤‡∏®‡∏™‡∏≥‡∏´‡∏£‡∏±‡∏ö‡∏ß‡∏±‡∏ô‡∏ô‡∏µ‡πâ‡∏Ñ‡∏£‡∏±‡∏ö"
def msgNoTemp : String := "‡πÑ‡∏°‡πà‡∏™‡∏≤‡∏°‡∏≤‡∏£‡∏ñ‡∏î‡∏∂‡∏á‡∏Ç‡πâ‡∏≠‡∏°‡∏π‡∏•‡∏≠‡∏∏‡∏ì‡∏´‡∏†‡∏π‡∏°‡∏¥‡πÑ‡∏î‡πâ‡∏Ñ‡∏£‡∏±‡∏ö"
def descUnknown : String := "‡πÑ‡∏°‡πà‡∏ó‡∏£‡∏≤‡∏ö"
def headerLine1 : String := "üå§Ô∏è ‡∏™‡∏†‡∏≤‡∏û‡∏≠‡∏≤‡∏Å‡∏≤‡∏®‡∏ß‡∏±‡∏ô‡∏ô‡∏µ‡πâ\n"
def pinLabel : String := "üìç "
def coordOpen : String := " ("
def coordSep : String := ", "
def coordClose : String := ")\n"
def tempLabel : String := "üå°Ô∏è ‡∏≠‡∏∏‡∏ì‡∏´‡∏†‡∏π‡∏°‡∏¥: "
def tempSep : String := "¬∞C - "
def tempSuffix : String := "¬∞C\n"
def condLabel : String := "‚òÅÔ∏è ‡∏™‡∏†‡∏≤‡∏û‡∏≠‡∏≤‡∏Å‡∏≤‡∏®: "
def condSuffix : String := "\n\n"
def dryRain1 : String := "üåßÔ∏è ‡∏ß‡∏±‡∏ô‡∏ô‡∏µ‡πâ‡∏ù‡∏ô‡∏ï‡∏Å ‡πÑ‡∏°‡πà‡∏Ñ‡∏ß‡∏£‡∏ã‡∏±‡∏Å‡∏ú‡πâ‡∏≤‡πÅ‡∏Ç‡∏ß‡∏ô‡∏Ç‡πâ‡∏≤‡∏á‡∏ô‡∏≠‡∏Å‡∏ô‡∏∞‡∏Ñ‡∏£‡∏±‡∏ö\n"
def dryRain2 : String := "üè† ‡πÅ‡∏ô‡∏∞‡∏ô‡∏≥‡∏ã‡∏±‡∏Å‡∏ú‡πâ‡∏≤‡πÅ‡∏•‡πâ‡∏ß‡πÑ‡∏õ‡∏ï‡∏≤‡∏Å‡∏Ç‡πâ‡∏≤‡∏á‡πÉ‡∏ô ‡∏´‡∏£‡∏∑‡∏≠‡πÉ‡∏ä‡πâ‡πÄ‡∏Ñ‡∏£‡∏∑‡πà‡∏≠‡∏á‡∏≠‡∏ö‡∏ú‡πâ‡∏≤\n"
def dryDamp1 : String := "‚ö†Ô∏è ‡∏ß‡∏±‡∏ô‡∏ô‡∏µ‡πâ‡∏°‡∏µ‡πÄ‡∏°‡∏Ü ‡∏≠‡∏≤‡∏à‡∏à‡∏∞‡πÅ‡∏´‡πâ‡∏á‡∏ä‡πâ‡∏≤‡∏´‡∏ô‡πà‡∏≠‡∏¢\n"
def dryDamp2 : String := "üëï ‡∏ã‡∏±‡∏Å‡∏ú‡πâ‡∏≤‡πÑ‡∏î‡πâ ‡πÅ‡∏ï‡πà‡∏Ñ‡∏ß‡∏£‡∏ï‡∏≤‡∏Å‡πÉ‡∏ô‡∏ó‡∏µ‡πà‡∏ó‡∏µ‡πà‡∏°‡∏µ‡∏•‡∏°‡∏ú‡πà‡∏≤‡∏ô\n"
def dryGood1 : String := "‚úÖ ‡∏ß‡∏±‡∏ô‡∏ô‡∏µ‡πâ‡∏≠‡∏≤‡∏Å‡∏≤‡∏®‡∏î‡∏µ ‡∏ã‡∏±‡∏Å‡∏ú‡πâ‡∏≤‡πÑ‡∏î‡πâ‡πÄ‡∏•‡∏¢‡∏Ñ‡∏£‡∏±‡∏ö!\n"
def dryGood2 : String := "‚òÄÔ∏è ‡πÅ‡∏î‡∏î‡∏î‡∏µ ‡∏ú‡πâ‡∏≤‡∏à‡∏∞‡πÅ‡∏´‡πâ‡∏á‡πÄ‡∏£‡πá‡∏ß\n"
def rainHeader : String := "\nüåßÔ∏è ‡∏Å‡∏≤‡∏£‡∏û‡∏¢‡∏≤‡∏Å‡∏£‡∏ì‡πå‡∏ù‡∏ô:\n"
def todayHeader : String := "üìÖ ‡∏ß‡∏±‡∏ô‡∏ô‡∏µ‡πâ:\n"
def tomorrowHeader : String := "üìÖ ‡∏û‡∏£‡∏∏‡πà‡∏á‡∏ô‡∏µ‡πâ:\n"
def emojiThunder : String := "‚õàÔ∏è"
def emojiHeavy : String := "üåßÔ∏è"
def emojiLight : String := "üå¶Ô∏è"
def lineIndent : String := "   "
def lineSp : String := " "
def probLabel : String := " - ‡πÇ‡∏≠‡∏Å‡∏≤‡∏™ "
def pctSign : String := "%"
def volOpen : String := " ("
def volClose : String := "mm)"
def umbRain : String := "\n‚òî ‡∏≠‡∏¢‡πà‡∏≤‡∏•‡∏∑‡∏°‡πÄ‡∏≠‡∏≤‡∏£‡πà‡∏°‡πÑ‡∏õ‡∏î‡πâ‡∏ß‡∏¢‡∏ô‡∏∞‡∏Ñ‡∏£‡∏±‡∏ö\n"
def onsetLabel : String := "‚è∞ ‡∏ù‡∏ô‡∏à‡∏∞‡∏ï‡∏Å‡∏õ‡∏£‡∏∞‡∏°‡∏≤‡∏ì "
def onsetEnd : String := "\n"
def umbSun : String := "\nüåÇ ‡∏£‡πâ‡∏≠‡∏ô‡∏°‡∏≤‡∏Å ‡∏Ñ‡∏ß‡∏£‡πÄ‡∏≠‡∏≤‡∏£‡πà‡∏°‡πÑ‡∏õ‡∏Å‡∏±‡∏ô‡πÅ‡∏î‡∏î‡∏î‡πâ‡∏ß‡∏¢\n"
def umbOk : String := "\nüëç ‡πÑ‡∏°‡πà‡∏ï‡πâ‡∏≠‡∏á‡πÄ‡∏≠‡∏≤‡∏£‡πà‡∏°‡∏Å‡πá‡πÑ‡∏î‡πâ ‡∏≠‡∏≤‡∏Å‡∏≤‡∏®‡πÇ‡∏≠‡πÄ‡∏Ñ\n"

/-! ## Data model (shape of the OpenWeatherMap 5-day/3-hour payload) -/

/-- One element of a forecast item's `weather` array: `main` is the primary
condition category ("Rain", "Clouds", ...), `description` the free text. -/
structure WeatherCond where
  main : String
  description : String
deriving DecidableEq, Repr

/-- The `main` sub-object of a forecast item; `temp` is `none` when the
temperature field is absent, non-numeric, or NaN (the code filters those
out with `typeof temp === "number" && !isNaN(temp)`). -/
structure MainInfo where
  temp : Option ℚ
deriving DecidableEq, Repr

/-- The `rain` sub-object: accumulated volume over 3 hours / 1 hour. -/
structure RainInfo where
  vol3h : Option ℚ
  vol1h : Option ℚ
deriving DecidableEq, Repr

/-- One 3-hour forecast sample (`weatherData.list[i]`). -/
structure ForecastItem where
  dt : Option Int
  weather : List WeatherCond
  main : Option MainInfo
  pop : Option ℚ
  rain : Option RainInfo
deriving DecidableEq, Repr

/-- The whole payload handed to `analyzeWeather`: the entry list (absent
when the provider returned no `list` field) and `city.name`. -/
structure WeatherData where
  list : Option (List ForecastItem)
  cityName : Option String
deriving DecidableEq, Repr

/-! ## String helpers: JavaScript `String.prototype.includes` -/

/-- Does the character list start with the pattern? -/
def startsWithChars : List Char → List Char → Bool
  | [], _ => true
  | _ :: _, [] => false
  | p :: ps, c :: cs => p == c && startsWithChars ps cs

/-- Does the character list contain the pattern as a contiguous run? -/
def charsContain (pat : List Char) : List Char → Bool
  | [] => pat.isEmpty
  | c :: cs => startsWithChars pat (c :: cs) || charsContain pat cs

/-- JavaScript `s.includes(pat)`: substring containment. -/
def jsIncludes (s pat : String) : Bool :=
  charsContain pat.data s.data

/-- JavaScript `s.toLowerCase()` on the ASCII category names. -/
def strLower (s : String) : String :=
  ⟨s.data.map Char.toLower⟩

/-! ## Configuration constants (`CONFIG` in the source) -/

def TEMP_THRESHOLD : ℚ := 30

def HIGH_TEMP_THRESHOLD : ℚ := 35

/-! ## Time bucketing

`getTodayDateString` and the per-item date computations all shift the
instant by the host timezone offset (minutes, the value of
`getTimezoneOffset()`) and read the UTC calendar fields of the shifted
instant.  The local calendar date of epoch second `s` is therefore day
number `(s - tz*60) / 86400` (floor division), and the `todayStr`
produced by `getTodayDateString` at the reference instant is the `today`
day-number parameter below.  `tomorrowStr` (today + 24 h re-parsed from
the date string) is day `today + 1`. -/

def localDay (tz dtSec : Int) : Int :=
  (dtSec - tz * 60).fdiv 86400

/-- Two-digit zero padding used by the `2-digit` time format. -/
def pad2 (n : Int) : String :=
  if n < 10 then "0" ++ toString n else toString n

/-- `toLocaleTimeString("th-TH", {hour: "2-digit", minute: "2-digit",
timeZone: "Asia/Bangkok"})` applied to the already host-shifted instant:
a 24-hour "HH:MM" of the shifted instant moved a further +7 h. -/
def timeOfDay (tz dtSec : Int) : String :=
  pad2 (((dtSec - tz * 60 + 7 * 3600).fdiv 3600).emod 24) ++ ":" ++
    pad2 (((dtSec - tz * 60 + 7 * 3600).fdiv 60).emod 60)

/-! ## Rain timing extraction (`analyzeRainTiming`) -/

/-- A derived rain event, as pushed onto `rainForecast`. -/
structure RainEvent where
  time : String
  isToday : Bool
  probability : Int
  volume : ℚ
  description : String
  intensity : String
deriving DecidableEq, Repr

/-- `Math.round`: round half toward positive infinity. -/
def jsRound (q : ℚ) : Int :=
  ⌊q + 1/2⌋

/-- `item.pop ? Math.round(item.pop * 100) : 0` (a `pop` of 0 is falsy). -/
def probabilityOf (pop : Option ℚ) : Int :=
  match pop with
  | none => 0
  | some p => if p = 0 then 0 else jsRound (p * 100)

/-- `item.rain ? (item.rain["3h"] || item.rain["1h"] || 0) : 0`:
JavaScript `||` skips a present-but-zero 3-hour value. -/
def jsVolume (r : Option RainInfo) : ℚ :=
  match r with
  | none => 0
  | some ri =>
    match ri.vol3h with
    | some v =>
      if v = 0 then
        match ri.vol1h with
        | some w => w
        | none => 0
      else v
    | none =>
      match ri.vol1h with
      | some w => w
      | none => 0

/-- Lower-cased category contains "rain", "thunderstorm" or "drizzle". -/
def rainFamily (c : String) : Bool :=
  jsIncludes c "rain" || jsIncludes c "thunderstorm" || jsIncludes c "drizzle"

/-- The filter of `analyzeWeather`'s today bucket: a falsy `dt` (absent
or 0) is rejected, otherwise the item's local date must be today. -/
def isTodayItem (tz today : Int) (it : ForecastItem) : Bool :=
  match it.dt with
  | none => false
  | some d => if d = 0 then false else localDay tz d == today

/-- The `relevantWeather` filter of `analyzeRainTiming`: falsy `dt`
rejected, local date must be today or tomorrow. -/
def inTodayOrTomorrow (tz today : Int) (it : ForecastItem) : Bool :=
  match it.dt with
  | none => false
  | some d =>
    if d = 0 then false
    else localDay tz d == today || localDay tz d == today + 1

/-- The rain-family test applied inside `analyzeRainTiming`'s forEach:
`weather && weather.main.toLowerCase().includes(...)`. -/
def condRainFamily (it : ForecastItem) : Bool :=
  match it.weather.head? with
  | none => false
  | some w => rainFamily (strLower w.main)

/-- The object pushed onto `rainForecast` for a kept item (its `dt` is
known truthy and its `weather[0]` present at the push site). -/
def mkRainEvent (tz today : Int) (it : ForecastItem) : RainEvent :=
  { time := timeOfDay tz (it.dt.getD 0)
    isToday := localDay tz (it.dt.getD 0) == today
    probability := probabilityOf it.pop
    volume := jsVolume it.rain
    description := (it.weather.head?.getD ⟨"", ""⟩).description
    intensity := strLower (it.weather.head?.getD ⟨"", ""⟩).main }

/-- `analyzeRainTiming`: filter today/tomorrow items, then push an event
for each item whose first weather condition is rain-family. -/
def analyzeRainTiming (tz today : Int) (items : List ForecastItem) : List RainEvent :=
  (items.filter (inTodayOrTomorrow tz today)).foldl
    (fun acc it =>
      match it.weather.head? with
      | none => acc
      | some w =>
        if rainFamily (strLower w.main) then acc ++ [mkRainEvent tz today it]
        else acc)
    []

/-- The combined keep-condition of the extractor: date filter plus
rain-family condition. -/
def keepRain (tz today : Int) (it : ForecastItem) : Bool :=
  inTodayOrTomorrow tz today it && condRainFamily it

/-! ## Rain timing formatting (`formatRainTiming`) -/

/-- `Number.prototype.toFixed(1)`: one decimal, rounding half away from
zero. -/
def toFixed1 (q : ℚ) : String :=
  (if q < 0 then "-" else "") ++
    toString ((((if q < 0 then -q else q) * 10 + 1/2).floor).toNat / 10) ++ "." ++
    toString ((((if q < 0 then -q else q) * 10 + 1/2).floor).toNat % 10)

def intensityEmojiOf (r : RainEvent) : String :=
  if jsIncludes r.intensity "thunderstorm" then emojiThunder
  else if r.volume > mkRat 5 2 then emojiHeavy
  else emojiLight

/-- One `rainMessage +=` line of the forEach bodies. -/
def renderRainLine (r : RainEvent) : String :=
  lineIndent ++ intensityEmojiOf r ++ lineSp ++ r.time ++ probLabel ++
    toString r.probability ++ pctSign ++
    (if r.volume > 0 then volOpen ++ toFixed1 r.volume ++ volClose else "") ++
    "\n"

/-- The forEach accumulation over a list of events. -/
def renderRainLines (l : List RainEvent) : String :=
  l.foldl (fun acc r => acc ++ renderRainLine r) ""

/-- `formatRainTiming`: empty for no events; otherwise header, the today
section over all today events, and the tomorrow section over the first
three tomorrow events (`slice(0, 3)`). -/
def formatRainTiming (rf : List RainEvent) : String :=
  if rf.length = 0 then ""
  else
    rainHeader ++
      (if (rf.filter (fun r => r.isToday)).length > 0 then
        todayHeader ++ renderRainLines (rf.filter (fun r => r.isToday))
      else "") ++
      (if (rf.filter (fun r => !r.isToday)).length > 0 then
        tomorrowHeader ++ renderRainLines ((rf.filter (fun r => !r.isToday)).take 3)
      else "")

/-! ## The decision core (`analyzeWeather`) -/

/-- Today's entries of the payload list. -/
def todayEntries (tz today : Int) (items : List ForecastItem) : List ForecastItem :=
  items.filter (isTodayItem tz today)

/-- `weather ? weather.main.toLowerCase() : ""` for one item. -/
def condLower (it : ForecastItem) : String :=
  match it.weather.head? with
  | some w => strLower w.main
  | none => ""

/-- `weatherConditions`: lower-cased categories, empty strings dropped by
`filter(Boolean)`. -/
def weatherConditions (tw : List ForecastItem) : List String :=
  (tw.map condLower).filter (fun s => !s.isEmpty)

def hasRainOf (tw : List ForecastItem) : Bool :=
  (weatherConditions tw).any rainFamily

def hasCloudsOf (tw : List ForecastItem) : Bool :=
  (weatherConditions tw).any (fun c => jsIncludes c "cloud")

/-- The numeric temperatures of today's entries (`item.main && item.main.temp`,
then the number filter); absent and non-numeric values are dropped, never
defaulted. -/
def tempsOf (tw : List ForecastItem) : List ℚ :=
  tw.filterMap (fun it => it.main.bind (fun m => m.temp))

/-- `Math.max(...temps)` on a non-empty list (unused default 0). -/
def listMax : List ℚ → ℚ
  | [] => 0
  | t :: ts => ts.foldl max t

/-- `Math.min(...temps)` on a non-empty list (unused default 0). -/
def listMin : List ℚ → ℚ
  | [] => 0
  | t :: ts => ts.foldl min t

/-- `temps.reduce((a, b) => a + b, 0) / temps.length`. -/
def avgOf (temps : List ℚ) : ℚ :=
  temps.foldl (· + ·) 0 / (temps.length : ℚ)

/-- Description of the chronologically first today entry, with fallback. -/
def descriptionOf (tw : List ForecastItem) : String :=
  match tw.head?.bind (fun it => it.weather.head?) with
  | some w => w.description
  | none => descUnknown

/-- Drying-advice category: the branch taken by the washing-clothes
if/else chain. -/
inductive DryCat
  | rain
  | dampRisk
  | good
deriving DecidableEq, Repr

def dryCat (hasRain hasClouds : Bool) (avgTemp : ℚ) : DryCat :=
  if hasRain then .rain
  else if hasClouds && decide (avgTemp < TEMP_THRESHOLD) then .dampRisk
  else .good

/-- The two message lines appended by each drying branch. -/
def dryingMsg : DryCat → String
  | .rain => dryRain1 ++ dryRain2
  | .dampRisk => dryDamp1 ++ dryDamp2
  | .good => dryGood1 ++ dryGood2

/-- Umbrella-advice category: the branch taken by the umbrella if/else
chain. -/
inductive UmbCat
  | bringRain
  | bringSun
  | notNeeded
deriving DecidableEq, Repr

def umbCat (hasRain : Bool) (maxTemp : ℚ) : UmbCat :=
  if hasRain then .bringRain
  else if maxTemp > HIGH_TEMP_THRESHOLD then .bringSun
  else .notNeeded

/-- The umbrella section: on rain, the reminder line plus — when the
extraction is non-empty and has a today event — the onset line with the
first today event's time (`rainForecast.find(r => r.isToday)`). -/
def umbrellaMsg (hasRain : Bool) (maxTemp : ℚ) (rainForecast : List RainEvent) : String :=
  match umbCat hasRain maxTemp with
  | .bringRain =>
    umbRain ++
      (if rainForecast.length > 0 then
        match rainForecast.find? (fun r => r.isToday) with
        | some nextRain => onsetLabel ++ nextRain.time ++ onsetEnd
        | none => ""
      else "")
  | .bringSun => umbSun
  | .notNeeded => umbOk

/-- The four header lines of the message. -/
def headerMsg (city latS lonS : String) (mn mx : ℚ) (desc : String) : String :=
  headerLine1 ++
    (pinLabel ++ city ++ coordOpen ++ latS ++ coordSep ++ lonS ++ coordClose) ++
    (tempLabel ++ toFixed1 mn ++ tempSep ++ toFixed1 mx ++ tempSuffix) ++
    (condLabel ++ desc ++ condSuffix)

/-- `analyzeWeather`: the three sentinels, then header, drying advice,
rain-timing section and umbrella advice. -/
def analyzeWeather (tz today : Int) (latS lonS : String) (wd : WeatherData) : String :=
  match wd.list with
  | none => msgFetchFail
  | some items =>
    if items.length = 0 then msgFetchFail
    else if (todayEntries tz today items).length = 0 then msgNoToday
    else if (tempsOf (todayEntries tz today items)).length = 0 then msgNoTemp
    else
      headerMsg (wd.cityName.getD "Unknown Location") latS lonS
          (listMin (tempsOf (todayEntries tz today items)))
          (listMax (tempsOf (todayEntries tz today items)))
          (descriptionOf (todayEntries tz today items)) ++
        dryingMsg (dryCat (hasRainOf (todayEntries tz today items))
          (hasCloudsOf (todayEntries tz today items))
          (avgOf (tempsOf (todayEntries tz today items)))) ++
        formatRainTiming (analyzeRainTiming tz today items) ++
        umbrellaMsg (hasRainOf (todayEntries tz today items))
          (listMax (tempsOf (todayEntries tz today items)))
          (analyzeRainTiming tz today items)

/-! ## Spec-side definitions used to compare code against claim wording -/

/-- Modelled from the spec wording of the volume rule ("the 3-hour
accumulated value if present, else 1-hour value, else 0"): presence, not
truthiness, selects the 3-hour field. -/
def volumeSpecC6 (r : Option RainInfo) : ℚ :=
  match r with
  | none => 0
  | some ri =>
    match ri.vol3h with
    | some v => v
    | none =>
      match ri.vol1h with
      | some w => w
      | none => 0

/-- Modelled from the claim wording of the extractor's keep-condition:
local calendar date equals today or tomorrow, and the primary condition
category is rain-family (an entry without a timestamp has no local
date and is never kept). -/
def keepSpecC7 (tz today : Int) (it : ForecastItem) : Bool :=
  match it.dt with
  | none => false
  | some d =>
    (localDay tz d == today || localDay tz d == today + 1) && condRainFamily it

/-! ## Helper lemmas -/

/-- Unfolding `analyzeWeather` on a payload with an entry list. -/
lemma analyzeWeather_some (tz today : Int) (latS lonS : String)
    (items : List ForecastItem) (city : Option String) :
    analyzeWeather tz today latS lonS ⟨some items, city⟩ =
      (if items.length = 0 then msgFetchFail
      else if (todayEntries tz today items).length = 0 then msgNoToday
      else if (tempsOf (todayEntries tz today items)).length = 0 then msgNoTemp
      else
        headerMsg (city.getD "Unknown Location") latS lonS
            (listMin (tempsOf (todayEntries tz today items)))
            (listMax (tempsOf (todayEntries tz today items)))
            (descriptionOf (todayEntries tz today items)) ++
          dryingMsg (dryCat (hasRainOf (todayEntries tz today items))
            (hasCloudsOf (todayEntries tz today items))
            (avgOf (tempsOf (todayEntries tz today items)))) ++
          formatRainTiming (analyzeRainTiming tz today items) ++
          umbrellaMsg (hasRainOf (todayEntries tz today items))
            (listMax (tempsOf (todayEntries tz today items)))
            (analyzeRainTiming tz today items)) := rfl

/-- Unfolding `analyzeWeather` on a payload with no entry list. -/
lemma analyzeWeather_none (tz today : Int) (latS lonS : String)
    (city : Option String) :
    analyzeWeather tz today latS lonS ⟨none, city⟩ = msgFetchFail := rfl

/-- The forEach push loop of `analyzeRainTiming` appends, in order, one
event per rain-family item. -/
lemma rainFold (tz today : Int) (l : List ForecastItem) (acc : List RainEvent) :
    l.foldl
      (fun acc it =>
        match it.weather.head? with
        | none => acc
        | some w =>
          if rainFamily (strLower w.main) then acc ++ [mkRainEvent tz today it]
          else acc)
      acc
    = acc ++ (l.filter condRainFamily).map (mkRainEvent tz today) := by
  induction l generalizing acc with
  | nil => simp
  | cons it ts ih =>
    rw [List.foldl_cons, ih, List.filter_cons]
    cases h : it.weather.head? with
    | none => simp [condRainFamily, h]
    | some w =>
      by_cases hw : rainFamily (strLower w.main)
      · simp [condRainFamily, h, hw]
      · simp [condRainFamily, h, hw]

/-- `analyzeRainTiming` is exactly: keep the items passing both filters,
map each to its event, preserving input order. -/
lemma analyzeRainTiming_characterization (tz today : Int) (items : List ForecastItem) :
    analyzeRainTiming tz today items =
      (items.filter (keepRain tz today)).map (mkRainEvent tz today) := by
  rw [analyzeRainTiming, rainFold, List.nil_append, List.filter_filter]
  congr 1
  apply List.filter_congr
  intro it _
  simp [keepRain, Bool.and_comm]

/-- If some member of the list has a rain-family first condition, the
analyzer's `hasRain` flag is set. -/
lemma hasRainOf_of_mem (tw : List ForecastItem)
    (hex : ∃ it ∈ tw, condRainFamily it = true) : hasRainOf tw = true := by
  obtain ⟨it, hmem, hc⟩ := hex
  have hcl : rainFamily (condLower it) = true := by
    rw [condRainFamily] at hc
    cases h : it.weather.head? with
    | none => rw [h] at hc; cases hc
    | some w => rw [h] at hc; simpa [condLower, h] using hc
  have hne : (condLower it).isEmpty = false := by
    cases he : (condLower it).isEmpty
    · rfl
    · exfalso
      have h0 : condLower it = "" := (String.isEmpty_iff _).mp he
      rw [h0] at hcl
      cases hcl
  rw [hasRainOf]
  apply List.any_eq_true.mpr
  exact ⟨condLower it,
    List.mem_filter.mpr ⟨List.mem_map_of_mem condLower hmem, by simp [hne]⟩, hcl⟩

/-! ## Concrete sample items used by the closed witness theorems.
Day 19000 starts at epoch second 1641600000; with a host offset of 0 the
local date of an epoch second is its UTC date. -/

/-- A today item (day 19000, 07:00 UTC = 14:00 Bangkok display) whose
category is rain-family. -/
def wItemRain : ForecastItem :=
  { dt := some 1641625200
    weather := [⟨"Rain", "light rain"⟩]
    main := some ⟨some 28⟩
    pop := some (mkRat 3 5)
    rain := some ⟨some (mkRat 21 5), none⟩ }

/-- A tomorrow item (day 19001) with clouds, used to build a payload with
no today entry. -/
def wItemTomorrow : ForecastItem :=
  { dt := some 1641700000
    weather := [⟨"Clouds", "scattered clouds"⟩]
    main := some ⟨some 25⟩
    pop := none
    rain := none }

/-- A today item with no numeric temperature. -/
def wItemNoTemp : ForecastItem :=
  { dt := some 1641625200
    weather := [⟨"Clouds", "overcast clouds"⟩]
    main := some ⟨none⟩
    pop := none
    rain := none }

/-- A rain item with no `dt` field. -/
def wItemNoDt : ForecastItem :=
  { dt := none
    weather := [⟨"Rain", "light rain"⟩]
    main := some ⟨some 25⟩
    pop := none
    rain := none }

/-- A rain item with a zero (falsy) `dt` field. -/
def wItemZeroDt : ForecastItem :=
  { dt := some 0
    weather := [⟨"Rain", "light rain"⟩]
    main := some ⟨some 25⟩
    pop := none
    rain := none }

/-! ## C3: empty-input and no-data-for-today sentinels -/

/-- C3: an absent or empty entry list yields the empty-input sentinel; a
non-empty list with no entry dated today yields the distinct
no-data-for-today sentinel; the two sentinel messages differ. -/
theorem claim_c3_empty_and_no_today_sentinels (tz today : Int)
    (latS lonS : String) (wd : WeatherData) :
    ((wd.list = none ∨ wd.list = some []) →
        analyzeWeather tz today latS lonS wd = msgFetchFail)
    ∧ (∀ items, wd.list = some items → items ≠ [] →
        todayEntries tz today items = [] →
        analyzeWeather tz today latS lonS wd = msgNoToday)
    ∧ msgFetchFail ≠ msgNoToday := by
  obtain ⟨lst, city⟩ := wd
  refine ⟨?_, ?_, by decide⟩
  · rintro (h | h) <;> (obtain rfl := h)
    · exact analyzeWeather_none tz today latS lonS city
    · rw [analyzeWeather_some]
      rfl
  · intro items hl hne hte
    obtain rfl := hl
    rw [analyzeWeather_some,
      if_neg (fun h => hne (List.length_eq_zero.mp h)), hte]
    simp

/-- Witness for C3 at concrete inputs. -/
theorem claim_c3_witness :
    analyzeWeather 0 19000 "13.7563" "100.5018" ⟨none, none⟩ = msgFetchFail
    ∧ analyzeWeather 0 19000 "13.7563" "100.5018" ⟨some [wItemTomorrow], none⟩ = msgNoToday
    ∧ msgFetchFail ≠ msgNoToday :=
  ⟨(claim_c3_empty_and_no_today_sentinels 0 19000 "13.7563" "100.5018"
      ⟨none, none⟩).1 (Or.inl rfl),
   (claim_c3_empty_and_no_today_sentinels 0 19000 "13.7563" "100.5018"
      ⟨some [wItemTomorrow], none⟩).2.1 [wItemTomorrow] rfl (by decide) (by decide),
   (claim_c3_empty_and_no_today_sentinels 0 19000 "13.7563" "100.5018"
      ⟨none, none⟩).2.2⟩

/-! ## C4: no-temperature sentinel -/

/-- C4: when today entries exist but none carries a numeric temperature,
the analyzer returns the no-temperature sentinel, distinct from the other
two sentinels (temperatures are dropped, never defaulted to 0). -/
theorem claim_c4_no_temperature_sentinel (tz today : Int) (latS lonS : String)
    (wd : WeatherData) (items : List ForecastItem)
    (hl : wd.list = some items) (h0 : items.length ≠ 0)
    (htw : (todayEntries tz today items).length ≠ 0)
    (ht : tempsOf (todayEntries tz today items) = []) :
    analyzeWeather tz today latS lonS wd = msgNoTemp
    ∧ msgNoTemp ≠ msgFetchFail ∧ msgNoTemp ≠ msgNoToday := by
  obtain ⟨lst, city⟩ := wd
  obtain rfl := hl
  refine ⟨?_, by decide, by decide⟩
  rw [analyzeWeather_some, if_neg h0, if_neg htw, ht]
  simp

/-- Witness for C4 at a concrete input. -/
theorem claim_c4_witness :
    analyzeWeather 0 19000 "13.7563" "100.5018" ⟨some [wItemNoTemp], none⟩ = msgNoTemp
    ∧ msgNoTemp ≠ msgFetchFail ∧ msgNoTemp ≠ msgNoToday :=
  claim_c4_no_temperature_sentinel 0 19000 "13.7563" "100.5018"
    ⟨some [wItemNoTemp], none⟩ [wItemNoTemp] rfl (by decide) (by decide) (by decide)

/-! ## C9: purity / determinism -/

/-- C9: the analysis is a pure function of the forecast payload, the
reference instant (today's day number), the host offset and the
coordinate strings: equal inputs give identical output, with no state
carried between invocations. -/
theorem claim_c9_pure_deterministic (tz tz2 today today2 : Int)
    (la la2 lo lo2 : String) (wd wd2 : WeatherData)
    (h1 : tz = tz2) (h2 : today = today2) (h3 : la = la2) (h4 : lo = lo2)
    (h5 : wd = wd2) :
    analyzeWeather tz today la lo wd = analyzeWeather tz2 today2 la2 lo2 wd2 := by
  subst h1 h2 h3 h4 h5
  rfl

/-- Witness for C9: two runs on the same concrete input agree. -/
theorem claim_c9_witness :
    analyzeWeather 0 19000 "13.7563" "100.5018" ⟨some [wItemRain], none⟩ =
      analyzeWeather 0 19000 "13.7563" "100.5018" ⟨some [wItemRain], none⟩ :=
  claim_c9_pure_deterministic 0 0 19000 19000 "13.7563" "13.7563"
    "100.5018" "100.5018" ⟨some [wItemRain], none⟩ ⟨some [wItemRain], none⟩
    rfl rfl rfl rfl rfl

/-! ## C10: falsy timestamps are silently excluded -/

/-- C10: an entry whose `dt` is absent or 0 is excluded from the today
bucket and from the rain extractor's date filter; a non-empty payload
whose entries all lack a truthy `dt` returns the no-data-for-today
sentinel (it never reaches the temperature computation). -/
theorem claim_c10_falsy_dt_excluded (tz today : Int) (latS lonS : String)
    (wd : WeatherData) :
    (∀ it : ForecastItem, it.dt = none ∨ it.dt = some 0 →
        isTodayItem tz today it = false ∧ inTodayOrTomorrow tz today it = false)
    ∧ (∀ items, wd.list = some items → items ≠ [] →
        (∀ it ∈ items, it.dt = none ∨ it.dt = some 0) →
        analyzeWeather tz today latS lonS wd = msgNoToday) := by
  constructor
  · rintro it (h | h) <;> simp [isTodayItem, inTodayOrTomorrow, h]
  · intro items hl hne hall
    have hte : todayEntries tz today items = [] := by
      rw [todayEntries, List.filter_eq_nil_iff]
      intro it hmem
      rcases hall it hmem with h | h <;> simp [isTodayItem, h]
    obtain ⟨lst, city⟩ := wd
    obtain rfl := hl
    rw [analyzeWeather_some,
      if_neg (fun h => hne (List.length_eq_zero.mp h)), hte]
    simp

/-- Witness for C10 at concrete inputs. -/
theorem claim_c10_witness :
    (isTodayItem 0 19000 wItemZeroDt = false
      ∧ inTodayOrTomorrow 0 19000 wItemZeroDt = false)
    ∧ analyzeWeather 0 19000 "13.7563" "100.5018"
        ⟨some [wItemNoDt, wItemZeroDt], none⟩ = msgNoToday :=
  ⟨(claim_c10_falsy_dt_excluded 0 19000 "13.7563" "100.5018"
      ⟨some [wItemNoDt, wItemZeroDt], none⟩).1 wItemZeroDt (Or.inr rfl),
   (claim_c10_falsy_dt_excluded 0 19000 "13.7563" "100.5018"
      ⟨some [wItemNoDt, wItemZeroDt], none⟩).2 [wItemNoDt, wItemZeroDt] rfl
      (by decide) (by decide)⟩

/-! ## C1: rain priority for the drying advice -/

/-- C1: whenever some today entry's lower-cased primary category contains
"rain", "thunderstorm" or "drizzle", the drying branch taken is the rain
category — whatever the temperatures and the clouds flag — and the
produced message carries the rain drying text. -/
theorem claim_c1_rain_priority_drying (tz today : Int) (latS lonS : String)
    (wd : WeatherData) (items : List ForecastItem)
    (hl : wd.list = some items) (h0 : items.length ≠ 0)
    (htw : (todayEntries tz today items).length ≠ 0)
    (ht : (tempsOf (todayEntries tz today items)).length ≠ 0)
    (hex : ∃ it ∈ todayEntries tz today items, condRainFamily it = true) :
    dryCat (hasRainOf (todayEntries tz today items))
        (hasCloudsOf (todayEntries tz today items))
        (avgOf (tempsOf (todayEntries tz today items))) = DryCat.rain
    ∧ ∃ pre mid post,
        analyzeWeather tz today latS lonS wd =
          pre ++ dryingMsg DryCat.rain ++ mid ++ post := by
  have hr : hasRainOf (todayEntries tz today items) = true :=
    hasRainOf_of_mem _ hex
  have hd : dryCat (hasRainOf (todayEntries tz today items))
      (hasCloudsOf (todayEntries tz today items))
      (avgOf (tempsOf (todayEntries tz today items))) = DryCat.rain := by
    simp [dryCat, hr]
  refine ⟨hd, ?_⟩
  obtain ⟨lst, city⟩ := wd
  obtain rfl := hl
  rw [analyzeWeather_some, if_neg h0, if_neg htw, if_neg ht, hd]
  exact ⟨_, _, _, rfl⟩

/-- Witness for C1: one rainy today entry with a hot, cloudless sky still
yields the rain drying advice. -/
theorem claim_c1_witness :
    dryCat (hasRainOf (todayEntries 0 19000 [wItemRain]))
        (hasCloudsOf (todayEntries 0 19000 [wItemRain]))
        (avgOf (tempsOf (todayEntries 0 19000 [wItemRain]))) = DryCat.rain
    ∧ ∃ pre mid post,
        analyzeWeather 0 19000 "13.7563" "100.5018" ⟨some [wItemRain], none⟩ =
          pre ++ dryingMsg DryCat.rain ++ mid ++ post :=
  claim_c1_rain_priority_drying 0 19000 "13.7563" "100.5018"
    ⟨some [wItemRain], none⟩ [wItemRain] rfl (by decide) (by decide) (by decide)
    ⟨wItemRain, by decide, by decide⟩

/-! ## C2: both advice thresholds are strict -/

/-- C2: a mean temperature of exactly 30 with clouds and no rain does not
trigger the damp-risk drying category (strict <), and a maximum of
exactly 35 with no rain does not trigger the bring-sun umbrella category
(strict >). -/
theorem claim_c2_strict_thresholds (tw tw2 : List ForecastItem)
    (hr : hasRainOf tw = false) (hc : hasCloudsOf tw = true)
    (havg : avgOf (tempsOf tw) = 30)
    (hr2 : hasRainOf tw2 = false) (hmax : listMax (tempsOf tw2) = 35) :
    dryCat (hasRainOf tw) (hasCloudsOf tw) (avgOf (tempsOf tw)) ≠ DryCat.dampRisk
    ∧ umbCat (hasRainOf tw2) (listMax (tempsOf tw2)) ≠ UmbCat.bringSun := by
  constructor
  · rw [hr, hc, havg]
    simp [dryCat, TEMP_THRESHOLD]
  · rw [hr2, hmax]
    simp [umbCat, HIGH_TEMP_THRESHOLD]

/-- A cloudy 25-degree today sample. -/
def wItemCloud25 : ForecastItem :=
  { dt := some 1641610800
    weather := [⟨"Clouds", "few clouds"⟩]
    main := some ⟨some 25⟩
    pop := none
    rain := none }

/-- A cloudy 35-degree today sample. -/
def wItemCloud35 : ForecastItem :=
  { dt := some 1641621600
    weather := [⟨"Clouds", "broken clouds"⟩]
    main := some ⟨some 35⟩
    pop := none
    rain := none }

/-- A clear 35-degree today sample. -/
def wItemClear35 : ForecastItem :=
  { dt := some 1641632400
    weather := [⟨"Clear", "clear sky"⟩]
    main := some ⟨some 35⟩
    pop := none
    rain := none }

/-- Witness for C2: mean exactly (25+35)/2 = 30 with clouds is not
damp-risk; max exactly 35 without rain is not bring-sun. -/
theorem claim_c2_witness :
    avgOf (tempsOf [wItemCloud25, wItemCloud35]) = 30
    ∧ listMax (tempsOf [wItemClear35]) = 35
    ∧ dryCat (hasRainOf [wItemCloud25, wItemCloud35])
        (hasCloudsOf [wItemCloud25, wItemCloud35])
        (avgOf (tempsOf [wItemCloud25, wItemCloud35])) ≠ DryCat.dampRisk
    ∧ umbCat (hasRainOf [wItemClear35]) (listMax (tempsOf [wItemClear35]))
        ≠ UmbCat.bringSun := by
  have havg : avgOf (tempsOf [wItemCloud25, wItemCloud35]) = 30 := by
    show avgOf [25, 35] = 30
    norm_num [avgOf, List.foldl_cons, List.foldl_nil]
  have hmax : listMax (tempsOf [wItemClear35]) = 35 := rfl
  have h := claim_c2_strict_thresholds [wItemCloud25, wItemCloud35] [wItemClear35]
    (by decide) (by decide) havg (by decide) hmax
  exact ⟨havg, hmax, h.1, h.2⟩

/-! ## C5: tomorrow rain events are capped at 3, today events are not -/

/-- C5: with more than three tomorrow events, the rendered rain-timing
message retains exactly the first three of them in order, and the today
section renders every today event uncapped. -/
theorem claim_c5_tomorrow_cap (td tm : List RainEvent)
    (htd : ∀ r ∈ td, r.isToday = true) (htm : ∀ r ∈ tm, r.isToday = false)
    (hlen : 3 < tm.length) :
    formatRainTiming (td ++ tm) = formatRainTiming (td ++ tm.take 3)
    ∧ formatRainTiming (td ++ tm) =
        rainHeader ++
          (if td.length > 0 then todayHeader ++ renderRainLines td else "") ++
          (tomorrowHeader ++ renderRainLines (tm.take 3)) := by
  have htm3 : ∀ r ∈ tm.take 3, r.isToday = false :=
    fun r hr => htm r (List.take_subset 3 tm hr)
  have hfi : (td ++ tm).filter (fun r => r.isToday) = td := by
    rw [List.filter_append, List.filter_eq_self.mpr htd,
      List.filter_eq_nil_iff.mpr (fun a ha => by simp [htm a ha]),
      List.append_nil]
  have hfo : (td ++ tm).filter (fun r => !r.isToday) = tm := by
    rw [List.filter_append,
      List.filter_eq_nil_iff.mpr (fun a ha => by simp [htd a ha]),
      List.filter_eq_self.mpr (fun a ha => by simp [htm a ha]),
      List.nil_append]
  have hfi3 : (td ++ tm.take 3).filter (fun r => r.isToday) = td := by
    rw [List.filter_append, List.filter_eq_self.mpr htd,
      List.filter_eq_nil_iff.mpr (fun a ha => by simp [htm3 a ha]),
      List.append_nil]
  have hfo3 : (td ++ tm.take 3).filter (fun r => !r.isToday) = tm.take 3 := by
    rw [List.filter_append,
      List.filter_eq_nil_iff.mpr (fun a ha => by simp [htd a ha]),
      List.filter_eq_self.mpr (fun a ha => by simp [htm3 a ha]),
      List.nil_append]
  have hlen3 : (tm.take 3).length = 3 := by
    rw [List.length_take]
    omega
  have hne : ¬((td ++ tm).length = 0) := by
    rw [List.length_append]
    omega
  have hne3 : ¬((td ++ tm.take 3).length = 0) := by
    rw [List.length_append]
    omega
  have hright : formatRainTiming (td ++ tm) =
      rainHeader ++
        (if td.length > 0 then todayHeader ++ renderRainLines td else "") ++
        (tomorrowHeader ++ renderRainLines (tm.take 3)) := by
    rw [formatRainTiming, if_neg hne, hfi, hfo, if_pos (by omega : tm.length > 0)]
  have hright3 : formatRainTiming (td ++ tm.take 3) =
      rainHeader ++
        (if td.length > 0 then todayHeader ++ renderRainLines td else "") ++
        (tomorrowHeader ++ renderRainLines (tm.take 3)) := by
    rw [formatRainTiming, if_neg hne3, hfi3, hfo3,
      if_pos (by omega : (tm.take 3).length > 0)]
    rw [List.take_take, Nat.min_self]
  exact ⟨hright.trans hright3.symm, hright⟩

/-- A concrete today rain event. -/
def wEvToday : RainEvent :=
  { time := "14:00", isToday := true, probability := 60, volume := mkRat 21 5
    description := "light rain", intensity := "rain" }

/-- A concrete tomorrow rain event, parametrized by its hour label. -/
def wEvTomorrow (t : String) : RainEvent :=
  { time := t, isToday := false, probability := 40, volume := 1
    description := "light rain", intensity := "rain" }

/-- Witness for C5: four tomorrow events collapse to the first three;
the lone today event is rendered. -/
theorem claim_c5_witness :
    formatRainTiming ([wEvToday] ++
        [wEvTomorrow "01:00", wEvTomorrow "04:00", wEvTomorrow "07:00",
          wEvTomorrow "10:00"]) =
      formatRainTiming ([wEvToday] ++
        [wEvTomorrow "01:00", wEvTomorrow "04:00", wEvTomorrow "07:00",
          wEvTomorrow "10:00"].take 3)
    ∧ formatRainTiming ([wEvToday] ++
        [wEvTomorrow "01:00", wEvTomorrow "04:00", wEvTomorrow "07:00",
          wEvTomorrow "10:00"]) =
        rainHeader ++
          (if [wEvToday].length > 0 then
            todayHeader ++ renderRainLines [wEvToday]
          else "") ++
          (tomorrowHeader ++ renderRainLines
            ([wEvTomorrow "01:00", wEvTomorrow "04:00", wEvTomorrow "07:00",
              wEvTomorrow "10:00"].take 3)) :=
  claim_c5_tomorrow_cap [wEvToday]
    [wEvTomorrow "01:00", wEvTomorrow "04:00", wEvTomorrow "07:00",
      wEvTomorrow "10:00"]
    (by decide) (by decide) (by decide)

/-! ## C6: fields of the extracted rain events -/

/-- A today rain item whose 3-hour volume is present but zero while the
1-hour volume is 5 mm. -/
def wItemC6 : ForecastItem :=
  { dt := some 1641625200
    weather := [⟨"Rain", "light rain"⟩]
    main := none
    pop := some (mkRat 3 5)
    rain := some ⟨some 0, some 5⟩ }

/-- C6 counterexample: with a present-but-zero 3-hour value and a 1-hour
value of 5, the code's event volume is 5, while the claimed rule ("the
3-hour accumulated value if present") gives 0. -/
theorem claim_c6_volume_counterexample :
    (analyzeRainTiming 0 19000 [wItemC6]).map RainEvent.volume = [5]
    ∧ volumeSpecC6 wItemC6.rain = 0
    ∧ (5 : ℚ) ≠ 0 := by
  refine ⟨by decide, by decide, by decide⟩

/-- C6 amended: one event per kept entry in input order with no
deduplication; probability = round(pop × 100), or 0 when pop is absent;
volume = the 3-hour value when present and non-zero (JavaScript `||`
falls through a present-but-zero 3-hour value), else the 1-hour value if
present, else 0. -/
theorem claim_c6_extraction_amended (tz today : Int) (items : List ForecastItem) :
    analyzeRainTiming tz today items =
      (items.filter (keepRain tz today)).map (mkRainEvent tz today)
    ∧ (∀ p : ℚ, probabilityOf (some p) = jsRound (p * 100))
    ∧ probabilityOf none = 0
    ∧ (∀ ri : RainInfo, ∀ v : ℚ, ri.vol3h = some v → v ≠ 0 →
        jsVolume (some ri) = v)
    ∧ (∀ ri : RainInfo, ri.vol3h = none ∨ ri.vol3h = some 0 →
        jsVolume (some ri) = ri.vol1h.getD 0)
    ∧ jsVolume none = 0 := by
  refine ⟨analyzeRainTiming_characterization tz today items, ?_, rfl, ?_, ?_, rfl⟩
  · intro p
    by_cases hp : p = 0
    · subst hp
      norm_num [probabilityOf, jsRound]
    · simp [probabilityOf, hp]
  · intro ri v h3 hv
    rw [jsVolume, h3]
    simp [hv]
  · rintro ri (h | h) <;> rw [jsVolume, h] <;> cases h1 : ri.vol1h <;> simp [h1]

/-- Witness for the amended C6 at concrete inputs. -/
theorem claim_c6_amended_witness :
    analyzeRainTiming 0 19000 [wItemC6] =
      (([wItemC6]).filter (keepRain 0 19000)).map (mkRainEvent 0 19000)
    ∧ probabilityOf (some (mkRat 3 5)) = jsRound ((mkRat 3 5) * 100)
    ∧ probabilityOf none = 0
    ∧ jsVolume (some ⟨some 3, none⟩) = 3
    ∧ jsVolume (some ⟨some 0, some 7⟩) = ((⟨some 0, some 7⟩ : RainInfo)).vol1h.getD 0
    ∧ jsVolume none = 0 := by
  have h := claim_c6_extraction_amended 0 19000 [wItemC6]
  exact ⟨h.1, h.2.1 (mkRat 3 5), h.2.2.1,
    h.2.2.2.1 ⟨some 3, none⟩ 3 rfl (by decide),
    h.2.2.2.2.1 ⟨some 0, some 7⟩ (Or.inr rfl), h.2.2.2.2.2⟩

/-! ## C7: which entries the extractor keeps -/

/-- C7: provided the reference date is after the epoch date in local time
(always true at runtime), the extractor keeps exactly the entries whose
local date is today or tomorrow and whose primary category is
rain-family, in input order. -/
theorem claim_c7_keep_exactly (tz today : Int) (items : List ForecastItem)
    (hepoch : localDay tz 0 < today) :
    analyzeRainTiming tz today items =
      (items.filter (keepSpecC7 tz today)).map (mkRainEvent tz today) := by
  rw [analyzeRainTiming_characterization]
  congr 1
  apply List.filter_congr
  intro it _
  cases hdt : it.dt with
  | none => simp [keepRain, keepSpecC7, inTodayOrTomorrow, hdt]
  | some d =>
    by_cases hd : d = 0
    · subst hd
      have h1 : localDay tz 0 ≠ today := ne_of_lt hepoch
      have h2 : localDay tz 0 ≠ today + 1 := ne_of_lt (by omega)
      simp [keepRain, keepSpecC7, inTodayOrTomorrow, hdt, h1, h2]
    · simp [keepRain, keepSpecC7, inTodayOrTomorrow, hdt, hd]

/-- A today drizzle item kept by the extractor. -/
def wItemDrizzle : ForecastItem :=
  { dt := some 1641636000
    weather := [⟨"Drizzle", "light intensity drizzle"⟩]
    main := some ⟨some 27⟩
    pop := none
    rain := none }

/-- A today clear item rejected by the extractor. -/
def wItemClearToday : ForecastItem :=
  { dt := some 1641646800
    weather := [⟨"Clear", "clear sky"⟩]
    main := some ⟨some 31⟩
    pop := none
    rain := none }

/-- Witness for C7 at concrete inputs. -/
theorem claim_c7_witness :
    localDay 0 0 < 19000
    ∧ analyzeRainTiming 0 19000 [wItemDrizzle, wItemClearToday] =
        (([wItemDrizzle, wItemClearToday]).filter (keepSpecC7 0 19000)).map
          (mkRainEvent 0 19000) :=
  ⟨by decide,
    claim_c7_keep_exactly 0 19000 [wItemDrizzle, wItemClearToday] (by decide)⟩

/-! ## C8: umbrella advice under rain, with onset time -/

/-- C8: when a today entry has a rain-family condition the umbrella branch
taken is bring-rain, and when the extraction has a today event the first
such event's time-of-day is attached as the expected onset. -/
theorem claim_c8_umbrella_rain_onset (tw : List ForecastItem) (m : ℚ)
    (rf : List RainEvent) (ev : RainEvent)
    (hex : ∃ it ∈ tw, condRainFamily it = true)
    (hev : rf.find? (fun r => r.isToday) = some ev) :
    umbCat (hasRainOf tw) m = UmbCat.bringRain
    ∧ umbrellaMsg (hasRainOf tw) m rf =
        umbRain ++ (onsetLabel ++ ev.time ++ onsetEnd) := by
  have hr : hasRainOf tw = true := hasRainOf_of_mem tw hex
  have hcat : umbCat (hasRainOf tw) m = UmbCat.bringRain := by
    simp [umbCat, hr]
  refine ⟨hcat, ?_⟩
  have hne : rf.length > 0 := by
    cases rf with
    | nil => simp at hev
    | cons a l => simp
  rw [umbrellaMsg, hcat]
  simp [hne, hev]

/-- A lone today rain item at 14:00 local display time. -/
def wItemRainC8 : ForecastItem :=
  { dt := some 1641625200
    weather := [⟨"Rain", "light rain"⟩]
    main := some ⟨some 28⟩
    pop := none
    rain := none }

/-- The event the extractor produces for `wItemRainC8`. -/
def wEvC8 : RainEvent :=
  { time := "14:00", isToday := true, probability := 0, volume := 0
    description := "light rain", intensity := "rain" }

/-- Witness for C8: the example scenario — a today entry with category
"Rain" at local time 14:00 yields bring-rain with onset 14:00. -/
theorem claim_c8_witness :
    umbCat (hasRainOf [wItemRainC8]) 32 = UmbCat.bringRain
    ∧ umbrellaMsg (hasRainOf [wItemRainC8]) 32
        (analyzeRainTiming 0 19000 [wItemRainC8]) =
        umbRain ++ (onsetLabel ++ "14:00" ++ onsetEnd) := by
  have h := claim_c8_umbrella_rain_onset [wItemRainC8] 32
    (analyzeRainTiming 0 19000 [wItemRainC8]) wEvC8
    ⟨wItemRainC8, by decide, by decide⟩ (by decide)
  exact ⟨h.1, h.2⟩
